import Mathlib

/-!
Shallow embedding of the tenant-scoping, lifecycle, and shift-ledger core of the
`banos-forum-backend` Express/Supabase service, together with theorems checking
the natural-language specification against it.

Conventions of the embedding:
- Database tables are lists of row structures; `single` models PostgREST's
  `.single()`, which yields a row exactly when the query matched one row and an
  error (here `none`) otherwise.
- Monetary amounts are rationals (`ℚ`); the source manipulates JS numbers with
  `parseFloat`, and every concrete amount appearing in the spec's test vectors
  is exactly representable, so rational arithmetic coincides with the source on
  the inputs the claims mention.
- Route handlers become pure functions from a request context and a database
  snapshot to `Except ErrorResp result`; external effects (the insert actually
  performed by the storage engine, bcrypt comparison, JWT signing, fresh ids,
  clock readings) are passed in as explicit parameters.
- Query-string parameters that the source guards with JS truthiness checks
  (`if (x && x !== '' && x !== 'all')`) on id-valued columns are modelled as
  `Option` values, `none` covering the absent / empty / `'all'` cases; for
  string-valued columns the guard is kept literally.
- Sorting (`.order(...)`) is omitted: it permutes rows and no claim depends on
  order; pagination (`.range(a, b)`) is kept as `drop`/`take`.
-/

namespace BanosForum

/-- Request context established by the auth middleware (`loadBusinessContext`):
`isSuperAdmin` is set for the `super_admin` role, `businessId` is the caller's
tenant and is always set for a non-super-admin that reaches a route handler. -/
structure ReqCtx where
  isSuperAdmin : Bool
  businessId : Option Nat
deriving DecidableEq

/-- A row of the `users` table. `business_id` is nullable (null for
`super_admin` accounts); `deleted_at` null means not soft-deleted. -/
structure UserRow where
  id : Nat
  email : String
  name : String
  role : String
  password_hash : String
  active : Bool
  business_id : Option Nat
  deleted_at : Option Nat
deriving DecidableEq

/-- A row of the `shifts` table. -/
structure ShiftRow where
  id : Nat
  user_id : Nat
  business_id : Nat
  status : String
  initial_cash : ℚ
  final_cash : Option ℚ
  cash_difference : Option ℚ
deriving DecidableEq

/-- A row of the `transactions` table. -/
structure TransactionRow where
  id : Nat
  shift_id : Nat
  product_id : Nat
  quantity : ℚ
  unit_price : ℚ
  total : ℚ
  payment_method : String
  status : String
  created_by : Nat
  business_id : Nat
  created_at : Nat
deriving DecidableEq

/-- A row of the `categories` table (no `deleted_at` column: the category
routes never soft-delete). -/
structure CategoryRow where
  id : Nat
  name : String
  description : Option String
  business_id : Nat
  active : Bool
deriving DecidableEq

/-- A row of the `products` table. -/
structure ProductRow where
  id : Nat
  name : String
  price : ℚ
  type : String
  category_id : Nat
  business_id : Nat
  active : Bool
  deleted_at : Option Nat
deriving DecidableEq

/-- A snapshot of the durable store. -/
structure DB where
  users : List UserRow
  shifts : List ShiftRow
  transactions : List TransactionRow
  categories : List CategoryRow
  products : List ProductRow
deriving DecidableEq

/-- An error response: HTTP status code and the `message`/`error` text the
handler sends with `success: false`. -/
structure ErrorResp where
  status : Nat
  message : String
deriving DecidableEq

/-- PostgREST `.single()`: exactly one matching row yields that row, zero or
several yield an error, which every call site in the source observes as a null
`data`. -/
def single {α : Type} (l : List α) : Option α :=
  match l with
  | [a] => some a
  | _ => none

/-! ### ShiftLedger: `src/routes/shifts.routes.ts` -/

/-- `POST /api/shifts/start`. The storage layer's answer to the insert is the
`insertResult` parameter: `Except.ok` with the stored row, or `Except.error`
with the raw storage error message (e.g. a unique-constraint violation), which
the handler's catch-all turns into a 500 carrying `error.message`. -/
def startShift (ctx : ReqCtx) (db : DB) (user_id : Nat) (initial_cash : ℚ)
    (insertResult : Except String ShiftRow) : Except ErrorResp ShiftRow :=
  if initial_cash < 0 then
    .error ⟨400, "El efectivo inicial no puede ser negativo"⟩
  else
    match ctx.businessId with
    | none => .error ⟨400, "No se pudo determinar la empresa"⟩
    | some businessId =>
      match single (db.shifts.filter (fun s =>
          s.user_id = user_id ∧ s.business_id = businessId ∧ s.status = "open")) with
      | some _ => .error ⟨400, "El usuario ya tiene un turno abierto"⟩
      | none =>
        match insertResult with
        | .ok row => .ok row
        | .error msg => .error ⟨500, msg⟩

/-- The cash-sales aggregation performed by `PUT /api/shifts/:id/close`:
`cashTransactions?.reduce((sum, t) => sum + parseFloat(t.total), 0) || 0`.
A plain left fold of addition over the `total` column of the shift's completed
cash transactions; no rounding is applied at any step. -/
def cashSalesOf (db : DB) (shiftId : Nat) : ℚ :=
  ((db.transactions.filter (fun t =>
      t.shift_id = shiftId ∧ t.payment_method = "cash" ∧ t.status = "completed")).map
    (fun t => t.total)).foldl (· + ·) 0

/-- The `arqueo` (till reconciliation) object returned by shift close. -/
structure Arqueo where
  initial_cash : ℚ
  cash_sales : ℚ
  expected_cash : ℚ
  final_cash : ℚ
  difference : ℚ
  status : String
deriving DecidableEq

/-- `PUT /api/shifts/:id/close`. Returns the updated shift row together with
the reconciliation object. The lookup filters on `status = 'open'`, so an
already-closed shift takes the same 404 branch as an absent or foreign-tenant
id (message: "Turno no encontrado o ya está cerrado"). -/
def closeShift (ctx : ReqCtx) (db : DB) (id : Nat) (final_cash? : Option ℚ) :
    Except ErrorResp (ShiftRow × Arqueo) :=
  match final_cash? with
  | none => .error ⟨400, "El efectivo final es requerido"⟩
  | some final_cash =>
    if final_cash < 0 then
      .error ⟨400, "El efectivo final no puede ser negativo"⟩
    else
      let base := db.shifts.filter (fun s => s.id = id ∧ s.status = "open")
      let rows := if ¬ctx.isSuperAdmin ∧ ctx.businessId.isSome then
          base.filter (fun s => some s.business_id = ctx.businessId)
        else base
      match single rows with
      | none => .error ⟨404, "Turno no encontrado o ya está cerrado"⟩
      | some shift =>
        let cashSales := cashSalesOf db id
        let expectedCash := shift.initial_cash + cashSales
        let cashDifference := final_cash - expectedCash
        .ok ({ shift with
                status := "closed",
                final_cash := some final_cash,
                cash_difference := some cashDifference },
             { initial_cash := shift.initial_cash,
               cash_sales := cashSales,
               expected_cash := expectedCash,
               final_cash := final_cash,
               difference := cashDifference,
               status := if cashDifference = 0 then "exacto"
                 else if cashDifference > 0 then "sobrante" else "faltante" })

/-! ### Accounts: `src/routes/users.routes.ts` -/

/-- The tenant-scope step repeated verbatim in every by-id lookup of the users
routes: `if (!req.isSuperAdmin && req.businessId) query.eq('business_id', req.businessId)`. -/
def scopeUsers (ctx : ReqCtx) (l : List UserRow) : List UserRow :=
  if ¬ctx.isSuperAdmin ∧ ctx.businessId.isSome then
    l.filter (fun u => u.business_id = ctx.businessId)
  else l

/-- The `eq('id', id)` + tenant scope + `.single()` lookup at the head of
`GET/PUT/PATCH/DELETE /api/users/:id`. -/
def userScopedById (ctx : ReqCtx) (db : DB) (id : Nat) : Option UserRow :=
  single (scopeUsers ctx (db.users.filter (fun u => u.id = id)))

/-- `GET /api/users/:id`: the scoped lookup, with any lookup failure (including
a cross-tenant id) reported as a 404. -/
def getUserById (ctx : ReqCtx) (db : DB) (id : Nat) : Except ErrorResp UserRow :=
  match userScopedById ctx db id with
  | some u => .ok u
  | none => .error ⟨404, "Usuario no encontrado"⟩

/-- `POST /api/users`. `hash` stands for `bcrypt.hash`, `newId` for the id the
store assigns to the inserted row. The uniqueness pre-check looks up
`(email, business_id)` with no `deleted_at` filter ("incluyendo eliminados")
and distinguishes a soft-deleted match from a live one. -/
def createUser (ctx : ReqCtx) (db : DB) (email name role password : String)
    (hash : String → String) (newId : Nat) : Except ErrorResp UserRow :=
  if email = "" ∨ name = "" ∨ role = "" ∨ password = "" then
    .error ⟨400, "Email, nombre, rol y contraseña son requeridos"⟩
  else if password.length < 6 then
    .error ⟨400, "La contraseña debe tener al menos 6 caracteres"⟩
  else if ¬(role = "admin" ∨ role = "supervisor" ∨ role = "cajero") then
    .error ⟨400, "Rol inválido"⟩
  else
    match ctx.businessId with
    | none => .error ⟨400, "Business ID no encontrado"⟩
    | some businessId =>
      match single (db.users.filter (fun u =>
          u.email = email ∧ u.business_id = some businessId)) with
      | some existingUser =>
        if existingUser.deleted_at.isSome then
          .error ⟨400, "El email ya está registrado (usuario eliminado). Puede restaurarlo en lugar de crear uno nuevo."⟩
        else
          .error ⟨400, "El email ya está registrado en esta empresa"⟩
      | none =>
        .ok { id := newId, email := email, name := name, role := role,
              password_hash := hash password, active := true,
              business_id := some businessId, deleted_at := none }

/-- `DELETE /api/users/:id` (soft delete): sets `deleted_at` to the current
time and forces `active := false` in the same update; the update itself is
keyed on `eq('id', id)`. Returns the updated snapshot and the updated row. -/
def deleteUser (ctx : ReqCtx) (db : DB) (id : Nat) (now : Nat) :
    Except ErrorResp (DB × UserRow) :=
  match userScopedById ctx db id with
  | none => .error ⟨404, "Usuario no encontrado"⟩
  | some user =>
    if user.deleted_at.isSome then
      .error ⟨400, "El usuario ya está eliminado"⟩
    else
      .ok ({ db with users := db.users.map (fun u =>
               if u.id = id then { u with deleted_at := some now, active := false } else u) },
           { user with deleted_at := some now, active := false })

/-- `PATCH /api/users/:id/restore`: clears `deleted_at` and sets
`active := true` in the same update. -/
def restoreUser (ctx : ReqCtx) (db : DB) (id : Nat) :
    Except ErrorResp (DB × UserRow) :=
  match userScopedById ctx db id with
  | none => .error ⟨404, "Usuario no encontrado"⟩
  | some user =>
    if user.deleted_at.isNone then
      .error ⟨400, "El usuario no está eliminado"⟩
    else
      .ok ({ db with users := db.users.map (fun u =>
               if u.id = id then { u with deleted_at := none, active := true } else u) },
           { user with deleted_at := none, active := true })

/-! ### Login: `src/routes/auth.ts` -/

/-- `POST /api/auth/login`. `compare` stands for `bcrypt.compare` and `sign`
for `jwt.sign`; on success the handler returns the signed token and the user
row. The user lookup filters `eq('email', email).eq('active', true)`, and both
the no-match case and the failed password comparison answer with the identical
401 body `{error: "Credenciales inválidas"}`. -/
def login (compare : String → String → Bool) (sign : UserRow → String)
    (db : DB) (email password : String) : Except ErrorResp (String × UserRow) :=
  if email = "" ∨ password = "" then
    .error ⟨400, "Email y contraseña son requeridos"⟩
  else
    match single (db.users.filter (fun u => u.email = email ∧ u.active = true)) with
    | none => .error ⟨401, "Credenciales inválidas"⟩
    | some user =>
      if compare password user.password_hash then
        .ok (sign user, user)
      else
        .error ⟨401, "Credenciales inválidas"⟩

/-! ### Catalog items: products routes (soft-delete revision) -/

/-- Tenant-scope step of the product by-id lookups. -/
def scopeProducts (ctx : ReqCtx) (l : List ProductRow) : List ProductRow :=
  if ¬ctx.isSuperAdmin ∧ ctx.businessId.isSome then
    l.filter (fun p => some p.business_id = ctx.businessId)
  else l

/-- By-id + scope + `.single()` lookup of the product routes. -/
def productScopedById (ctx : ReqCtx) (db : DB) (id : Nat) : Option ProductRow :=
  single (scopeProducts ctx (db.products.filter (fun p => p.id = id)))

/-- `POST /api/products`: validations, category existence/active check,
tenant-scoped name-uniqueness pre-check (no `deleted_at` filter, with the
soft-deleted match reported distinctly), then the insert. `price = 0` trips the
JS required-field truthiness check before the `price <= 0` range check. -/
def createProduct (ctx : ReqCtx) (db : DB) (name : String) (price : ℚ)
    (ptype : String) (category_id : Nat) (newId : Nat) : Except ErrorResp ProductRow :=
  if name = "" ∨ price = 0 ∨ ptype = "" then
    .error ⟨400, "Nombre, precio y tipo son requeridos"⟩
  else if category_id = 0 then
    .error ⟨400, "La categoría es requerida"⟩
  else if price ≤ 0 then
    .error ⟨400, "El precio debe ser mayor a 0"⟩
  else if ¬(ptype = "bano" ∨ ptype = "ducha" ∨ ptype = "locker") then
    .error ⟨400, "Tipo inválido. Debe ser: bano, ducha o locker"⟩
  else
    match ctx.businessId with
    | none => .error ⟨400, "Business ID no encontrado"⟩
    | some businessId =>
      match single (db.categories.filter (fun c =>
          c.id = category_id ∧ c.business_id = businessId ∧ c.active = true)) with
      | none => .error ⟨400, "Categoría no encontrada o inactiva"⟩
      | some _ =>
        match single (db.products.filter (fun p =>
            p.name = name ∧ p.business_id = businessId)) with
        | some existingProduct =>
          if existingProduct.deleted_at.isSome then
            .error ⟨400, "Ya existe un producto con ese nombre (eliminado). Puede restaurarlo en lugar de crear uno nuevo."⟩
          else
            .error ⟨400, "Ya existe un producto con ese nombre en tu empresa"⟩
        | none =>
          .ok { id := newId, name := name, price := price, type := ptype,
                category_id := category_id, business_id := businessId,
                active := true, deleted_at := none }

/-- `DELETE /api/products/:id` (soft delete): sets `deleted_at` and forces
`active := false` in the same update. -/
def deleteProduct (ctx : ReqCtx) (db : DB) (id : Nat) (now : Nat) :
    Except ErrorResp (DB × ProductRow) :=
  match productScopedById ctx db id with
  | none => .error ⟨404, "Producto no encontrado"⟩
  | some product =>
    if product.deleted_at.isSome then
      .error ⟨400, "El producto ya está eliminado"⟩
    else
      .ok ({ db with products := db.products.map (fun p =>
               if p.id = id then { p with deleted_at := some now, active := false } else p) },
           { product with deleted_at := some now, active := false })

/-- `PATCH /api/products/:id/restore`: clears `deleted_at` and sets
`active := true` in the same update. -/
def restoreProduct (ctx : ReqCtx) (db : DB) (id : Nat) :
    Except ErrorResp (DB × ProductRow) :=
  match productScopedById ctx db id with
  | none => .error ⟨404, "Producto no encontrado"⟩
  | some product =>
    if product.deleted_at.isNone then
      .error ⟨400, "El producto no está eliminado"⟩
    else
      .ok ({ db with products := db.products.map (fun p =>
               if p.id = id then { p with deleted_at := none, active := true } else p) },
           { product with deleted_at := none, active := true })

/-! ### Categories: `src/routes/categories.ts` -/

/-- Tenant-scope step of the category by-id lookups. -/
def scopeCategories (ctx : ReqCtx) (l : List CategoryRow) : List CategoryRow :=
  if ¬ctx.isSuperAdmin ∧ ctx.businessId.isSome then
    l.filter (fun c => some c.business_id = ctx.businessId)
  else l

/-- By-id + scope + `.single()` lookup of the category routes. -/
def categoryScopedById (ctx : ReqCtx) (db : DB) (id : Nat) : Option CategoryRow :=
  single (scopeCategories ctx (db.categories.filter (fun c => c.id = id)))

/-- `DELETE /api/categories/:id`: counts the products whose `category_id`
references the category — with no filter on the product's `active` flag or
`deleted_at` — refuses when the count is positive, and otherwise performs a
HARD delete (`.delete().eq('id', id)`): the row is physically removed. -/
def deleteCategory (ctx : ReqCtx) (db : DB) (id : Nat) : Except ErrorResp DB :=
  match categoryScopedById ctx db id with
  | none => .error ⟨404, "Categoría no encontrada"⟩
  | some _ =>
    let depCount := (db.products.filter (fun p => p.category_id = id)).length
    if depCount > 0 then
      .error ⟨400, "No se puede eliminar. Hay " ++ toString depCount ++
        " producto(s) usando esta categoría"⟩
    else
      .ok { db with categories := db.categories.filter (fun c => ¬c.id = id) }

/-! ### Sales: `src/routes/transactions.routes.ts` -/

/-- JS `String.prototype.includes`: substring containment. -/
def containsSub (s pat : String) : Bool :=
  (List.range (s.toList.length + 1)).any
    (fun i => pat.toList.isPrefixOf (s.toList.drop i))

/-- Query parameters of `GET /api/transactions`. String-valued filters keep
the source's `≠ '' ∧ ≠ 'all'` guard; id-valued and date filters are `Option`s
whose `none` covers the absent / empty / `'all'` source cases. -/
structure TxListParams where
  search : Option String
  payment_method : Option String
  status : Option String
  date_from : Option Nat
  date_to : Option Nat
  shift_id : Option Nat
  created_by : Option Nat
  page : Nat
  limit : Nat
deriving DecidableEq

/-- The `if (param && param !== '' && param !== 'all') query = query.eq(col, param)`
pattern of the transactions listing, for a Nat-valued column (absent / empty /
`'all'` modelled as `none`). -/
def eqFilterOptNat (q : List TransactionRow) (param : Option Nat)
    (proj : TransactionRow → Nat) : List TransactionRow :=
  match param with
  | some v => q.filter (fun t => proj t = v)
  | none => q

/-- The same conditional-`eq` pattern for a String-valued column, keeping the
source's `!== '' && !== 'all'` guard literally. -/
def eqFilterOptStr (q : List TransactionRow) (param : Option String)
    (proj : TransactionRow → String) : List TransactionRow :=
  match param with
  | some v => if v ≠ "" ∧ v ≠ "all" then q.filter (fun t => proj t = v) else q
  | none => q

/-- `if (date_from) query = query.gte('created_at', date_from)`. -/
def fromFilterOpt (q : List TransactionRow) (param : Option Nat) :
    List TransactionRow :=
  match param with
  | some v => q.filter (fun t => v ≤ t.created_at)
  | none => q

/-- `if (date_to) query = query.lte('created_at', endOfDay(date_to))`; the
bound is the already-adjusted end-of-day instant. -/
def toFilterOpt (q : List TransactionRow) (param : Option Nat) :
    List TransactionRow :=
  match param with
  | some v => q.filter (fun t => t.created_at ≤ v)
  | none => q

/-- The in-memory product-name search applied to the fetched page:
`transaction.products?.name?.toLowerCase().includes(search.toLowerCase())`. -/
def searchFilter (db : DB) (q : List TransactionRow) (param : Option String) :
    List TransactionRow :=
  match param with
  | some s =>
    if s ≠ "" then
      q.filter (fun t =>
        match db.products.find? (fun pr => pr.id = t.product_id) with
        | some pr => containsSub pr.name.toLower s.toLower
        | none => false)
    else q
  | none => q

/-- `GET /api/transactions`: tenant scope first, then the optional equality
and date-range filters modelled by the combinators above (one per
`if (param) query = query.eq(...)` line of the handler), pagination via
`range(offset, offset + limit - 1)`, and the in-memory product-name search
applied to the fetched page. -/
def listTransactions (ctx : ReqCtx) (db : DB) (p : TxListParams) :
    List TransactionRow :=
  let q := db.transactions
  let q : List TransactionRow := if ¬ctx.isSuperAdmin ∧ ctx.businessId.isSome then
      q.filter (fun t => some t.business_id = ctx.businessId)
    else q
  let q : List TransactionRow := eqFilterOptNat q p.created_by (fun t => t.created_by)
  let q : List TransactionRow := eqFilterOptStr q p.payment_method (fun t => t.payment_method)
  let q : List TransactionRow := eqFilterOptStr q p.status (fun t => t.status)
  let q : List TransactionRow := eqFilterOptNat q p.shift_id (fun t => t.shift_id)
  let q : List TransactionRow := fromFilterOpt q p.date_from
  let q : List TransactionRow := toFilterOpt q p.date_to
  let q : List TransactionRow := (q.drop ((p.page - 1) * p.limit)).take p.limit
  searchFilter db q p.search

/-- `POST /api/transactions`. `total?` is the caller-supplied `total` body
field; the handler stores `total || (quantity * unit_price)`, so a truthy
caller value wins and only an absent (or zero, i.e. falsy) value falls back to
the computed product. `status || 'completed'` is modelled the same way. -/
def createTransaction (ctx : ReqCtx) (db : DB) (shift_id product_id : Nat)
    (quantity unit_price : ℚ) (total? : Option ℚ) (payment_method : String)
    (status? : Option String) (created_by : Nat) (newId : Nat) (now : Nat) :
    Except ErrorResp TransactionRow :=
  match ctx.businessId with
  | none => .error ⟨400, "No se pudo determinar la empresa"⟩
  | some businessId =>
    if shift_id = 0 ∨ product_id = 0 ∨ quantity = 0 ∨ unit_price = 0 ∨
        payment_method = "" ∨ created_by = 0 then
      .error ⟨400, "Faltan campos requeridos"⟩
    else
      let shiftRows := db.shifts.filter (fun s => s.id = shift_id)
      let shiftRows := if ¬ctx.isSuperAdmin then
          shiftRows.filter (fun s => s.business_id = businessId)
        else shiftRows
      match single shiftRows with
      | none => .error ⟨400, "El turno no está activo"⟩
      | some shift =>
        if shift.status = "open" then
          .ok { id := newId, shift_id := shift_id, product_id := product_id,
                quantity := quantity, unit_price := unit_price,
                total := (match total? with
                  | some t => if t = 0 then quantity * unit_price else t
                  | none => quantity * unit_price),
                payment_method := payment_method,
                status := (match status? with
                  | some st => if st = "" then "completed" else st
                  | none => "completed"),
                created_by := created_by, business_id := businessId,
                created_at := now }
        else
          .error ⟨400, "El turno no está activo"⟩

/-! ### Spec-side rounding model (for the claim about per-step rounding) -/

/-- Rounding to two decimal places in the way the repository's report routes
do it (`Math.round(x * 100) / 100`): JS `Math.round` is floor of `x + 1/2`. -/
def round2 (q : ℚ) : ℚ := (⌊q * 100 + 1 / 2⌋ : ℚ) / 100

/-- Modelled from the spec: the cash-sales accumulation as §4.5 describes it,
with the monetary sum "rounded to the currency's minor-unit precision … after
each accumulation step". To be compared with the source's `cashSalesOf`. -/
def specCashSalesPerStepRounded (totals : List ℚ) : ℚ :=
  totals.foldl (fun sum t => round2 (sum + t)) 0

/-! ### Shared lemmas -/

/-- `single` answers a row exactly when the query matched exactly that row. -/
theorem single_eq_some {α : Type} {l : List α} {a : α} :
    single l = some a ↔ l = [a] := by
  cases l with
  | nil => simp [single]
  | cons x t => cases t <;> simp [single]

/-- A left fold of addition is the starting value plus the sum. -/
theorem foldl_add_eq_add_sum (l : List ℚ) (s : ℚ) :
    l.foldl (· + ·) s = s + l.sum := by
  induction l generalizing s with
  | nil => simp
  | cons a t ih => simp [ih, add_assoc]

/-! ### Claim C2 -/

/-- Concrete store for the §8 reconciliation vectors: one open shift with
opening cash 100.00 (tenant 7) and three completed cash sales of
50.00, 25.50 and 10.00 attached to it. -/
def c2db : DB where
  users := []
  shifts := [{ id := 1, user_id := 2, business_id := 7, status := "open",
               initial_cash := 100, final_cash := none, cash_difference := none }]
  transactions :=
    [{ id := 1, shift_id := 1, product_id := 1, quantity := 1, unit_price := 50,
       total := 50, payment_method := "cash", status := "completed",
       created_by := 2, business_id := 7, created_at := 0 },
     { id := 2, shift_id := 1, product_id := 1, quantity := 1, unit_price := 25.50,
       total := 25.50, payment_method := "cash", status := "completed",
       created_by := 2, business_id := 7, created_at := 0 },
     { id := 3, shift_id := 1, product_id := 1, quantity := 1, unit_price := 10,
       total := 10, payment_method := "cash", status := "completed",
       created_by := 2, business_id := 7, created_at := 0 }]
  categories := []
  products := []

/-- The shift row as closed on the exact vector. -/
def c2shClosed : ShiftRow :=
  { id := 1, user_id := 2, business_id := 7, status := "closed",
    initial_cash := 100, final_cash := some 185.50, cash_difference := some 0 }

/-- The reconciliation object of the exact vector. -/
def c2arqExact : Arqueo :=
  { initial_cash := 100, cash_sales := 85.50, expected_cash := 185.50,
    final_cash := 185.50, difference := 0, status := "exacto" }

/-- Claim C2: every successful shift close computes `cash_sales` as the sum of
`total` over exactly the shift's completed cash sales, `expected_cash` as
opening cash plus cash sales, `difference` (the variance) as closing cash minus
expected cash, and classifies a zero variance as `"exacto"` (exact), a positive
one as `"sobrante"` (surplus) and a negative one as `"faltante"` (shortage);
and on the §8 vectors — opening cash 100.00, completed cash sales 50.00, 25.50,
10.00 — closing at 185.50 yields expected cash 185.50, variance 0, `"exacto"`,
while closing at 180.00 yields variance −5.50, `"faltante"`. -/
theorem c2_close_reconciliation :
    (∀ (ctx : ReqCtx) (db : DB) (id : Nat) (fc : ℚ) (sh : ShiftRow) (arq : Arqueo),
      closeShift ctx db id (some fc) = .ok (sh, arq) →
      arq.cash_sales = ((db.transactions.filter (fun t =>
          t.shift_id = id ∧ t.payment_method = "cash" ∧ t.status = "completed")).map
            (fun t => t.total)).sum ∧
      arq.expected_cash = arq.initial_cash + arq.cash_sales ∧
      arq.difference = fc - arq.expected_cash ∧
      (arq.difference = 0 → arq.status = "exacto") ∧
      (0 < arq.difference → arq.status = "sobrante") ∧
      (arq.difference < 0 → arq.status = "faltante")) ∧
    ((closeShift ⟨false, some 7⟩ c2db 1 (some 185.50)).toOption.map
        (fun r => (r.2.expected_cash, r.2.difference, r.2.status)) =
      some (185.50, 0, "exacto")) ∧
    ((closeShift ⟨false, some 7⟩ c2db 1 (some 180)).toOption.map
        (fun r => (r.2.expected_cash, r.2.difference, r.2.status)) =
      some (185.50, -5.50, "faltante")) := by
  refine ⟨?_, ?_, ?_⟩
  · intro ctx db id fc sh arq h
    simp only [closeShift] at h
    split at h
    · exact absurd h (by simp)
    · split at h
      · exact absurd h (by simp)
      · rename_i shift hsingle
        rw [Except.ok.injEq, Prod.mk.injEq] at h
        obtain ⟨h3, h4⟩ := h
        subst h4
        refine ⟨?_, by simp, by simp, ?_, ?_, ?_⟩
        · show cashSalesOf db id = _
          unfold cashSalesOf
          rw [foldl_add_eq_add_sum, zero_add]
        · intro h0
          simp only [Arqueo.difference] at h0
          simp [h0]
        · intro h0
          simp only [Arqueo.difference] at h0
          simp only [Arqueo.status]
          rw [if_neg (ne_of_gt h0), if_pos h0]
        · intro h0
          simp only [Arqueo.difference] at h0
          simp only [Arqueo.status]
          rw [if_neg (ne_of_lt h0), if_neg (lt_asymm h0)]
  · norm_num [closeShift, c2db, cashSalesOf, single, Except.toOption]
  · norm_num [closeShift, c2db, cashSalesOf, single, Except.toOption]

/-- Witness for C2: the exact §8 vector discharges the success hypothesis of
the general reconciliation statement. -/
theorem c2_close_reconciliation_witness :
    closeShift ⟨false, some 7⟩ c2db 1 (some 185.50) = .ok (c2shClosed, c2arqExact) ∧
    (c2arqExact.cash_sales = ((c2db.transactions.filter (fun t =>
        t.shift_id = 1 ∧ t.payment_method = "cash" ∧ t.status = "completed")).map
          (fun t => t.total)).sum ∧
      c2arqExact.expected_cash = c2arqExact.initial_cash + c2arqExact.cash_sales ∧
      c2arqExact.difference = 185.50 - c2arqExact.expected_cash ∧
      (c2arqExact.difference = 0 → c2arqExact.status = "exacto") ∧
      (0 < c2arqExact.difference → c2arqExact.status = "sobrante") ∧
      (c2arqExact.difference < 0 → c2arqExact.status = "faltante")) :=
  have h : closeShift ⟨false, some 7⟩ c2db 1 (some 185.50) = .ok (c2shClosed, c2arqExact) := by
    norm_num [closeShift, c2db, cashSalesOf, single, c2shClosed, c2arqExact]
  ⟨h, c2_close_reconciliation.1 ⟨false, some 7⟩ c2db 1 185.50 c2shClosed c2arqExact h⟩

/-! ### Claim C6 -/

/-- Store with a single shift, already closed, belonging to tenant 5. -/
def c6db : DB where
  users := []
  shifts := [{ id := 1, user_id := 2, business_id := 5, status := "closed",
               initial_cash := 100, final_cash := some 150, cash_difference := some 0 }]
  transactions := []
  categories := []
  products := []

/-- Counterexample to claim C6: shift 1 exists in the caller's own tenant and
is already closed, yet the close attempt answers 404 (the same "Turno no
encontrado o ya está cerrado" outcome as an absent id), not a 400-class
`ShiftNotOpen` state conflict: the lookup filters on `status = 'open'`, so a
closed shift is indistinguishable from a missing one. -/
theorem c6_closed_shift_counterexample :
    (c6db.shifts.map (fun s => (s.id, s.business_id, s.status)) = [(1, 5, "closed")]) ∧
    closeShift ⟨false, some 5⟩ c6db 1 (some 10) =
      .error ⟨404, "Turno no encontrado o ya está cerrado"⟩ ∧
    (404 : Nat) ≠ 400 := by
  refine ⟨by simp [c6db], ?_, by decide⟩
  simp [closeShift, c6db, single]

/-- Claim C6 amended: a close attempt on a shift that is already closed (or on
any id with no open shift visible to the caller) fails with the single 404
response "Turno no encontrado o ya está cerrado"; the code has no distinct
400 `ShiftNotOpen` outcome, because the close lookup filters on
`status = 'open'`. -/
theorem c6_amended_closed_shift_404 :
    ∀ (ctx : ReqCtx) (db : DB) (id : Nat) (fc : ℚ),
      ¬fc < 0 →
      (∀ s ∈ db.shifts, s.id = id → s.status ≠ "open") →
      closeShift ctx db id (some fc) =
        .error ⟨404, "Turno no encontrado o ya está cerrado"⟩ := by
  intro ctx db id fc hfc hclosed
  have hbase : db.shifts.filter (fun s => s.id = id ∧ s.status = "open") = [] := by
    rw [List.filter_eq_nil_iff]
    intro s hs
    simp only [decide_eq_true_eq, not_and]
    intro hid
    exact hclosed s hs hid
  simp only [closeShift, if_neg hfc, hbase, List.filter_nil, ite_self, single]

/-- Witness for the amended C6 theorem at the concrete closed shift of `c6db`. -/
theorem c6_amended_closed_shift_404_witness :
    closeShift ⟨false, some 5⟩ c6db 1 (some 10) =
      .error ⟨404, "Turno no encontrado o ya está cerrado"⟩ :=
  c6_amended_closed_shift_404 ⟨false, some 5⟩ c6db 1 10 (by norm_num)
    (by intro s hs hid; simp [c6db] at hs; simp [hs])

/-! ### Claim C7 -/

/-- Store with one open shift (opening cash 0) and one completed cash sale
whose total, 1.005, is not a two-decimal amount, so any rounding to two
decimals would change it. -/
def c7db : DB where
  users := []
  shifts := [{ id := 1, user_id := 2, business_id := 5, status := "open",
               initial_cash := 0, final_cash := none, cash_difference := none }]
  transactions :=
    [{ id := 1, shift_id := 1, product_id := 1, quantity := 1, unit_price := 1.005,
       total := 1.005, payment_method := "cash", status := "completed",
       created_by := 2, business_id := 5, created_at := 0 }]
  categories := []
  products := []

/-- Counterexample to claim C7: closing the shift of `c7db` reports
`cash_sales = 201/200 = 1.005`, a value that is not rounded to two decimal
places at all — it differs both from the per-step-rounded accumulation the
spec describes (`101/100 = 1.01`) and from its own two-decimal rounding, so
the fold rounds neither after each step nor at the end. -/
theorem c7_rounding_counterexample :
    ((closeShift ⟨false, some 5⟩ c7db 1 (some 0)).toOption.map
        (fun r => r.2.cash_sales) = some (201 / 200)) ∧
    specCashSalesPerStepRounded
        ((c7db.transactions.filter (fun t =>
          t.shift_id = 1 ∧ t.payment_method = "cash" ∧ t.status = "completed")).map
            (fun t => t.total)) = 101 / 100 ∧
    (201 / 200 : ℚ) ≠ 101 / 100 ∧
    round2 (201 / 200) ≠ (201 / 200 : ℚ) := by
  refine ⟨?_, ?_, by norm_num, ?_⟩
  · norm_num [closeShift, c7db, cashSalesOf, single, Except.toOption]
  · norm_num [specCashSalesPerStepRounded, c7db, round2]
  · norm_num [round2]

/-- Claim C7 amended: the shift-close cash-sales computation applies no
rounding at any accumulation step (nor at the end): `cashSales` is the exact
sum of the `total` values of the shift's completed cash sales, and that exact
sum is what the reconciliation object reports. -/
theorem c7_amended_no_per_step_rounding :
    (∀ (db : DB) (id : Nat),
      cashSalesOf db id = ((db.transactions.filter (fun t =>
        t.shift_id = id ∧ t.payment_method = "cash" ∧ t.status = "completed")).map
          (fun t => t.total)).sum) ∧
    (∀ (ctx : ReqCtx) (db : DB) (id : Nat) (fc : ℚ) (sh : ShiftRow) (arq : Arqueo),
      closeShift ctx db id (some fc) = .ok (sh, arq) →
      arq.cash_sales = cashSalesOf db id) := by
  constructor
  · intro db id
    unfold cashSalesOf
    rw [foldl_add_eq_add_sum, zero_add]
  · intro ctx db id fc sh arq h
    simp only [closeShift] at h
    split at h
    · exact absurd h (by simp)
    · split at h
      · exact absurd h (by simp)
      · rw [Except.ok.injEq, Prod.mk.injEq] at h
        obtain ⟨h3, h4⟩ := h
        subst h4
        rfl

/-- Witness for the amended C7 theorem: closing the shift of `c7db` reports
exactly the unrounded sum. -/
theorem c7_amended_no_per_step_rounding_witness :
    closeShift ⟨false, some 5⟩ c7db 1 (some 0) =
      .ok ({ id := 1, user_id := 2, business_id := 5, status := "closed",
             initial_cash := 0, final_cash := some 0,
             cash_difference := some (-(201 / 200)) },
           { initial_cash := 0, cash_sales := 201 / 200,
             expected_cash := 201 / 200, final_cash := 0,
             difference := -(201 / 200), status := "faltante" }) ∧
    (201 / 200 : ℚ) = cashSalesOf c7db 1 :=
  have h : closeShift ⟨false, some 5⟩ c7db 1 (some 0) =
      .ok ({ id := 1, user_id := 2, business_id := 5, status := "closed",
             initial_cash := 0, final_cash := some 0,
             cash_difference := some (-(201 / 200)) },
           { initial_cash := 0, cash_sales := 201 / 200,
             expected_cash := 201 / 200, final_cash := 0,
             difference := -(201 / 200), status := "faltante" }) := by
    norm_num [closeShift, c7db, cashSalesOf, single]
  ⟨h, c7_amended_no_per_step_rounding.2 ⟨false, some 5⟩ c7db 1 0 _ _ h⟩

/-! ### Claim C3 -/

/-- Store in which user 2 has no open shift in tenant 5 (only a closed one),
so the shift-start pre-check passes. -/
def c3db : DB where
  users := []
  shifts := [{ id := 1, user_id := 2, business_id := 5, status := "closed",
               initial_cash := 0, final_cash := some 0, cash_difference := some 0 }]
  transactions := []
  categories := []
  products := []

/-- Counterexample to claim C3: the pre-check passes (no open shift), the
storage layer rejects the insert with a uniqueness-constraint violation, and
the handler surfaces it as a 500 carrying the raw storage message — not as the
domain-level 400 `ShiftAlreadyOpen` ("El usuario ya tiene un turno abierto"). -/
theorem c3_raw_constraint_error_counterexample :
    (c3db.shifts.filter (fun s =>
      s.user_id = 2 ∧ s.business_id = 5 ∧ s.status = "open") = []) ∧
    startShift ⟨false, some 5⟩ c3db 2 10
        (.error "duplicate key value violates unique constraint shifts_one_open_per_user") =
      .error ⟨500, "duplicate key value violates unique constraint shifts_one_open_per_user"⟩ ∧
    (⟨500, "duplicate key value violates unique constraint shifts_one_open_per_user"⟩ : ErrorResp) ≠
      ⟨400, "El usuario ya tiene un turno abierto"⟩ := by
  refine ⟨by simp [c3db], ?_, by decide⟩
  simp [startShift, c3db, single]

/-- Claim C3 amended: a second sequential shift-open for an (account, tenant)
pair with an open shift fails with the 400 `ShiftAlreadyOpen` message via the
pre-check; but when the pre-check passes and the storage layer rejects the
insert (e.g. a uniqueness-constraint violation), the handler surfaces a 500
carrying the raw storage error message instead of translating it. -/
theorem c3_amended_precheck_and_raw_insert_error :
    (∀ (ctx : ReqCtx) (db : DB) (uid b : Nat) (cash : ℚ)
        (ins : Except String ShiftRow) (s : ShiftRow),
      ¬cash < 0 → ctx.businessId = some b →
      db.shifts.filter (fun t =>
        t.user_id = uid ∧ t.business_id = b ∧ t.status = "open") = [s] →
      startShift ctx db uid cash ins =
        .error ⟨400, "El usuario ya tiene un turno abierto"⟩) ∧
    (∀ (ctx : ReqCtx) (db : DB) (uid b : Nat) (cash : ℚ) (msg : String),
      ¬cash < 0 → ctx.businessId = some b →
      db.shifts.filter (fun t =>
        t.user_id = uid ∧ t.business_id = b ∧ t.status = "open") = [] →
      startShift ctx db uid cash (.error msg) = .error ⟨500, msg⟩) := by
  constructor
  · intro ctx db uid b cash ins s hcash hb hfilter
    simp only [startShift, if_neg hcash, hb, hfilter, single]
  · intro ctx db uid b cash msg hcash hb hfilter
    simp only [startShift, if_neg hcash, hb, hfilter, single]

/-- A store in which user 2 already has an open shift in tenant 5. -/
def c3openDb : DB where
  users := []
  shifts := [{ id := 1, user_id := 2, business_id := 5, status := "open",
               initial_cash := 0, final_cash := none, cash_difference := none }]
  transactions := []
  categories := []
  products := []

/-- Witness for the amended C3 theorem: a store with one open shift makes the
second open fail 400, and `c3db` (no open shift) makes a storage rejection
surface as a raw 500. -/
theorem c3_amended_precheck_and_raw_insert_error_witness :
    startShift ⟨false, some 5⟩ c3openDb 2 10 (.error "x") =
      .error ⟨400, "El usuario ya tiene un turno abierto"⟩ ∧
    startShift ⟨false, some 5⟩ c3db 2 10 (.error "x") = .error ⟨500, "x"⟩ :=
  ⟨c3_amended_precheck_and_raw_insert_error.1 ⟨false, some 5⟩ c3openDb 2 5 10 (.error "x")
      { id := 1, user_id := 2, business_id := 5, status := "open",
        initial_cash := 0, final_cash := none, cash_difference := none }
      (by norm_num) rfl (by simp [c3openDb]),
    c3_amended_precheck_and_raw_insert_error.2 ⟨false, some 5⟩ c3db 2 5 10 "x"
      (by norm_num) rfl (by simp [c3db])⟩

/-! ### Claim C9 -/

/-- Store with one open shift (id 1, tenant 5) to attach a sale to. -/
def c9db : DB where
  users := []
  shifts := [{ id := 1, user_id := 2, business_id := 5, status := "open",
               initial_cash := 0, final_cash := none, cash_difference := none }]
  transactions := []
  categories := []
  products := []

/-- Counterexample to claim C9: the caller supplies `total = 999` with
`quantity = 2` and `unit_price = 3`, and the stored total is the caller's 999,
not the computed `2 × 3 = 6`: the handler stores
`total || (quantity * unit_price)`, so a truthy caller value wins. -/
theorem c9_caller_total_counterexample :
    ((createTransaction ⟨false, some 5⟩ c9db 1 1 2 3 (some 999) "cash" none 2 10 0).toOption.map
        (fun r => r.total) = some 999) ∧
    (999 : ℚ) ≠ 2 * 3 := by
  refine ⟨?_, by norm_num⟩
  simp [createTransaction, c9db, single, Except.toOption]

/-- Claim C9 amended: the stored total of a created sale is the caller-supplied
`total` whenever that body field is present and truthy (non-zero); only when it
is absent or zero does the handler fall back to `quantity × unit_price`. -/
theorem c9_amended_total_caller_overridable :
    (∀ (ctx : ReqCtx) (db : DB) (sid pid : Nat) (q up t : ℚ) (pm : String)
        (st? : Option String) (cb nid now : Nat) (row : TransactionRow),
      createTransaction ctx db sid pid q up (some t) pm st? cb nid now = .ok row →
      t ≠ 0 → row.total = t) ∧
    (∀ (ctx : ReqCtx) (db : DB) (sid pid : Nat) (q up : ℚ) (pm : String)
        (st? : Option String) (cb nid now : Nat) (row : TransactionRow),
      createTransaction ctx db sid pid q up (some 0) pm st? cb nid now = .ok row →
      row.total = q * up) ∧
    (∀ (ctx : ReqCtx) (db : DB) (sid pid : Nat) (q up : ℚ) (pm : String)
        (st? : Option String) (cb nid now : Nat) (row : TransactionRow),
      createTransaction ctx db sid pid q up none pm st? cb nid now = .ok row →
      row.total = q * up) := by
  refine ⟨?_, ?_, ?_⟩
  · intro ctx db sid pid q up t pm st? cb nid now row h ht
    simp only [createTransaction] at h
    split at h
    · exact absurd h (by simp)
    · split at h
      · exact absurd h (by simp)
      · split at h
        · exact absurd h (by simp)
        · split at h
          · rw [Except.ok.injEq] at h
            subst h
            simp [if_neg ht]
          · exact absurd h (by simp)
  · intro ctx db sid pid q up pm st? cb nid now row h
    simp only [createTransaction] at h
    split at h
    · exact absurd h (by simp)
    · split at h
      · exact absurd h (by simp)
      · split at h
        · exact absurd h (by simp)
        · split at h
          · rw [Except.ok.injEq] at h
            subst h
            simp
          · exact absurd h (by simp)
  · intro ctx db sid pid q up pm st? cb nid now row h
    simp only [createTransaction] at h
    split at h
    · exact absurd h (by simp)
    · split at h
      · exact absurd h (by simp)
      · split at h
        · exact absurd h (by simp)
        · split at h
          · rw [Except.ok.injEq] at h
            subst h
            simp
          · exact absurd h (by simp)

/-- The row stored by the counterexample creation: caller total 999 kept. -/
def c9row : TransactionRow :=
  { id := 10, shift_id := 1, product_id := 1, quantity := 2, unit_price := 3,
    total := 999, payment_method := "cash", status := "completed",
    created_by := 2, business_id := 5, created_at := 0 }

/-- Witness for the amended C9 theorem: a concrete creation with a truthy
caller-supplied total discharges its hypotheses. -/
theorem c9_amended_total_caller_overridable_witness :
    createTransaction ⟨false, some 5⟩ c9db 1 1 2 3 (some 999) "cash" none 2 10 0 =
      .ok c9row ∧ (999 : ℚ) ≠ 0 ∧ c9row.total = 999 :=
  have h : createTransaction ⟨false, some 5⟩ c9db 1 1 2 3 (some 999) "cash" none 2 10 0 =
      .ok c9row := by
    simp [createTransaction, c9db, single, c9row]
  ⟨h, by norm_num,
    c9_amended_total_caller_overridable.1 ⟨false, some 5⟩ c9db 1 1 2 3 999 "cash" none 2 10 0
      c9row h (by norm_num)⟩

/-! ### Claim C1 -/

/-- For a non-super-admin with a bound tenant, the scope step is exactly the
tenant filter. -/
theorem scopeUsers_of_scoped {ctx : ReqCtx} {t : Nat} (hsa : ctx.isSuperAdmin = false)
    (hb : ctx.businessId = some t) (l : List UserRow) :
    scopeUsers ctx l = l.filter (fun v => v.business_id = some t) := by
  simp [scopeUsers, hsa, hb]

/-- Each optional Nat-column filter only narrows the query. -/
theorem eqFilterOptNat_subset (q : List TransactionRow) (param : Option Nat)
    (proj : TransactionRow → Nat) : eqFilterOptNat q param proj ⊆ q := by
  cases param with
  | none => exact fun a h => h
  | some v => exact (List.filter_sublist _).subset

/-- Each optional String-column filter only narrows the query. -/
theorem eqFilterOptStr_subset (q : List TransactionRow) (param : Option String)
    (proj : TransactionRow → String) : eqFilterOptStr q param proj ⊆ q := by
  cases param with
  | none => exact fun a h => h
  | some v =>
    intro a h
    simp only [eqFilterOptStr] at h
    by_cases hc : v ≠ "" ∧ v ≠ "all"
    · rw [if_pos hc] at h
      exact (List.mem_filter.mp h).1
    · rw [if_neg hc] at h
      exact h

/-- The `date_from` filter only narrows the query. -/
theorem fromFilterOpt_subset (q : List TransactionRow) (param : Option Nat) :
    fromFilterOpt q param ⊆ q := by
  cases param with
  | none => exact fun a h => h
  | some v => exact (List.filter_sublist _).subset

/-- The `date_to` filter only narrows the query. -/
theorem toFilterOpt_subset (q : List TransactionRow) (param : Option Nat) :
    toFilterOpt q param ⊆ q := by
  cases param with
  | none => exact fun a h => h
  | some v => exact (List.filter_sublist _).subset

/-- The in-memory search only narrows the fetched page. -/
theorem searchFilter_subset (db : DB) (q : List TransactionRow) (param : Option String) :
    searchFilter db q param ⊆ q := by
  cases param with
  | none => exact fun a h => h
  | some s =>
    intro a h
    simp only [searchFilter] at h
    by_cases hc : s ≠ ""
    · rw [if_pos hc] at h
      exact (List.mem_filter.mp h).1
    · rw [if_neg hc] at h
      exact h

/-- Every row produced by the transactions listing came through the tenant
scope stage. -/
theorem listTransactions_subset_scoped (ctx : ReqCtx) (db : DB) (p : TxListParams) :
    listTransactions ctx db p ⊆
      (if ¬ctx.isSuperAdmin ∧ ctx.businessId.isSome then
        db.transactions.filter (fun t => some t.business_id = ctx.businessId)
      else db.transactions) := by
  intro row hmem
  unfold listTransactions at hmem
  have h1 := searchFilter_subset db _ p.search hmem
  have h2 := List.take_subset _ _ h1
  have h3 := List.drop_subset _ _ h2
  have h4 := toFilterOpt_subset _ p.date_to h3
  have h5 := fromFilterOpt_subset _ p.date_from h4
  have h6 := eqFilterOptNat_subset _ p.shift_id _ h5
  have h7 := eqFilterOptStr_subset _ p.status _ h6
  have h8 := eqFilterOptStr_subset _ p.payment_method _ h7
  exact eqFilterOptNat_subset _ p.created_by _ h8

/-- Claim C1: for a non-operator principal bound to tenant `t`:
(1) a by-id account read only ever returns a row of tenant `t`;
(2) an id whose rows all belong to other tenants answers the 404
"Usuario no encontrado" — a NotFound, never a 403 and never data;
(3) every row of the transactions listing belongs to tenant `t`;
(4) the shift-close write only touches a shift of tenant `t`. -/
theorem c1_tenant_isolation :
    (∀ (ctx : ReqCtx) (db : DB) (t id : Nat) (u : UserRow),
      ctx.isSuperAdmin = false → ctx.businessId = some t →
      getUserById ctx db id = .ok u → u.business_id = some t) ∧
    (∀ (ctx : ReqCtx) (db : DB) (t id : Nat),
      ctx.isSuperAdmin = false → ctx.businessId = some t →
      (∀ v ∈ db.users, v.id = id → v.business_id ≠ some t) →
      getUserById ctx db id = .error ⟨404, "Usuario no encontrado"⟩) ∧
    (∀ (ctx : ReqCtx) (db : DB) (t : Nat) (p : TxListParams) (row : TransactionRow),
      ctx.isSuperAdmin = false → ctx.businessId = some t →
      row ∈ listTransactions ctx db p → row.business_id = t) ∧
    (∀ (ctx : ReqCtx) (db : DB) (t id : Nat) (fc : ℚ) (sh : ShiftRow) (arq : Arqueo),
      ctx.isSuperAdmin = false → ctx.businessId = some t →
      closeShift ctx db id (some fc) = .ok (sh, arq) → sh.business_id = t) := by
  refine ⟨?_, ?_, ?_, ?_⟩
  · intro ctx db t id u hsa hb h
    unfold getUserById userScopedById at h
    rw [scopeUsers_of_scoped hsa hb] at h
    split at h
    · rename_i w hs
      rw [Except.ok.injEq] at h
      subst h
      have hl := single_eq_some.mp hs
      have hmem : w ∈ (db.users.filter (fun v => v.id = id)).filter
          (fun v => v.business_id = some t) := by
        rw [hl]; exact List.mem_singleton.mpr rfl
      exact of_decide_eq_true (List.mem_filter.mp hmem).2
    · exact absurd h (by simp)
  · intro ctx db t id hsa hb hcross
    unfold getUserById userScopedById
    rw [scopeUsers_of_scoped hsa hb]
    have hnil : (db.users.filter (fun v => v.id = id)).filter
        (fun v => v.business_id = some t) = [] := by
      rw [List.filter_eq_nil_iff]
      intro v hv
      obtain ⟨hv1, hv2⟩ := List.mem_filter.mp hv
      simp only [decide_eq_true_eq] at hv2 ⊢
      exact hcross v hv1 hv2
    rw [hnil]
    rfl
  · intro ctx db t p row hsa hb hmem
    have h1 := listTransactions_subset_scoped ctx db p hmem
    rw [if_pos ⟨by simp [hsa], by simp [hb]⟩] at h1
    have h2 := (List.mem_filter.mp h1).2
    rw [hb] at h2
    simpa using of_decide_eq_true h2
  · intro ctx db t id fc sh arq hsa hb h
    simp only [closeShift, hsa, hb] at h
    split at h
    · exact absurd h (by simp)
    · split at h
      · exact absurd h (by simp)
      · rename_i shift hs
        rw [Except.ok.injEq, Prod.mk.injEq] at h
        obtain ⟨h3, h4⟩ := h
        subst h3
        rw [if_pos ⟨by simp, rfl⟩] at hs
        have hl := single_eq_some.mp hs
        have hmem : shift ∈ (db.shifts.filter (fun s => s.id = id ∧ s.status = "open")).filter
            (fun s => some s.business_id = some t) := by
          rw [hl]; exact List.mem_singleton.mpr rfl
        have := of_decide_eq_true (List.mem_filter.mp hmem).2
        simpa using this


/-- A tenant-5 account used by the C1 witness. -/
def c1user : UserRow :=
  { id := 1, email := "a@x.com", name := "A", role := "admin",
    password_hash := "h", active := true, business_id := some 5,
    deleted_at := none }

/-- Two-tenant store for the C1 witness: account 1 and the only shift and sale
belong to tenant 5, account 2 belongs to tenant 6. -/
def c1db : DB where
  users := [c1user,
            { id := 2, email := "b@y.com", name := "B", role := "admin",
              password_hash := "h", active := true, business_id := some 6,
              deleted_at := none }]
  shifts := [{ id := 1, user_id := 1, business_id := 5, status := "open",
               initial_cash := 0, final_cash := none, cash_difference := none }]
  transactions := [{ id := 1, shift_id := 1, product_id := 1, quantity := 1,
                     unit_price := 2, total := 2, payment_method := "cash",
                     status := "completed", created_by := 1, business_id := 5,
                     created_at := 0 }]
  categories := []
  products := []

/-- Default (everything absent) listing parameters, first page of 50. -/
def c1params : TxListParams :=
  { search := none, payment_method := none, status := none, date_from := none,
    date_to := none, shift_id := none, created_by := none, page := 1, limit := 50 }

/-- The tenant-5 sale row of `c1db`. -/
def c1tx : TransactionRow :=
  { id := 1, shift_id := 1, product_id := 1, quantity := 1, unit_price := 2,
    total := 2, payment_method := "cash", status := "completed", created_by := 1,
    business_id := 5, created_at := 0 }

/-- Witness for C1: a tenant-5 caller reads its own account (and the returned
row is tenant 5), gets a 404 for the tenant-6 account's id, lists only
tenant-5 sales, and the shift it closes is a tenant-5 shift. -/
theorem c1_tenant_isolation_witness :
    (getUserById ⟨false, some 5⟩ c1db 1 = .ok c1user ∧ c1user.business_id = some 5) ∧
    getUserById ⟨false, some 5⟩ c1db 2 = .error ⟨404, "Usuario no encontrado"⟩ ∧
    (c1tx ∈ listTransactions ⟨false, some 5⟩ c1db c1params ∧ c1tx.business_id = 5) ∧
    ((closeShift ⟨false, some 5⟩ c1db 1 (some 0)).toOption.map
        (fun r => r.1.business_id) = some 5) :=
  have h1 : getUserById ⟨false, some 5⟩ c1db 1 = .ok c1user := by
    simp [getUserById, userScopedById, scopeUsers, single, c1db, c1user]
  have hmem : c1tx ∈ listTransactions ⟨false, some 5⟩ c1db c1params := by
    simp [listTransactions, c1db, c1params, c1tx, eqFilterOptNat, eqFilterOptStr,
      fromFilterOpt, toFilterOpt, searchFilter]
  have h4 : closeShift ⟨false, some 5⟩ c1db 1 (some 0) =
      .ok ({ id := 1, user_id := 1, business_id := 5, status := "closed",
             initial_cash := 0, final_cash := some 0, cash_difference := some (-2) },
           { initial_cash := 0, cash_sales := 2, expected_cash := 2,
             final_cash := 0, difference := -2, status := "faltante" }) := by
    simp [closeShift, c1db, cashSalesOf, single]
  ⟨⟨h1, c1_tenant_isolation.1 ⟨false, some 5⟩ c1db 5 1 c1user rfl rfl h1⟩,
   c1_tenant_isolation.2.1 ⟨false, some 5⟩ c1db 5 2 rfl rfl (by decide),
   ⟨hmem, c1_tenant_isolation.2.2.1 ⟨false, some 5⟩ c1db 5 c1params c1tx rfl rfl hmem⟩,
   by
    rw [h4]
    have h5 := c1_tenant_isolation.2.2.2 ⟨false, some 5⟩ c1db 5 1 0 _ _ rfl rfl h4
    simp [Except.toOption, h5]⟩

/-! ### Claim C10 -/

/-- Claim C10: login succeeds only for accounts with `active = true`.
(1) When every account carrying the given email is inactive, login answers
the same 401 "Credenciales inválidas" regardless of the password comparison
(even a correct password), issuing no token.
(2) A failed password comparison produces the identical 401 response.
(3) Soft delete forces `active = false` on the deleted row (together with the
timestamp), so every soft-deleted account is inactive. -/
theorem c10_login_requires_active :
    (∀ (compare : String → String → Bool) (sign : UserRow → String) (db : DB)
        (email pw : String),
      email ≠ "" → pw ≠ "" →
      (∀ u ∈ db.users, u.email = email → u.active = false) →
      login compare sign db email pw = .error ⟨401, "Credenciales inválidas"⟩) ∧
    (∀ (compare : String → String → Bool) (sign : UserRow → String) (db : DB)
        (email pw : String) (u : UserRow),
      email ≠ "" → pw ≠ "" →
      single (db.users.filter (fun v => v.email = email ∧ v.active = true)) = some u →
      compare pw u.password_hash = false →
      login compare sign db email pw = .error ⟨401, "Credenciales inválidas"⟩) ∧
    (∀ (ctx : ReqCtx) (db : DB) (id now : Nat) (db₁ : DB) (r : UserRow),
      deleteUser ctx db id now = .ok (db₁, r) →
      r.active = false ∧ r.deleted_at = some now) := by
  refine ⟨?_, ?_, ?_⟩
  · intro compare sign db email pw he hp hinact
    unfold login
    rw [if_neg (by simp [he, hp])]
    have hnil : db.users.filter (fun v => v.email = email ∧ v.active = true) = [] := by
      rw [List.filter_eq_nil_iff]
      intro v hv
      simp only [decide_eq_true_eq, not_and]
      intro hemail
      rw [hinact v hv hemail]
      simp
    rw [hnil]
    rfl
  · intro compare sign db email pw u he hp hs hcmp
    unfold login
    rw [if_neg (by simp [he, hp])]
    rw [hs]
    simp [hcmp]
  · intro ctx db id now db₁ r h
    unfold deleteUser at h
    split at h
    · exact absurd h (by simp)
    · split at h
      · exact absurd h (by simp)
      · rw [Except.ok.injEq, Prod.mk.injEq] at h
        obtain ⟨h1, h2⟩ := h
        subst h2
        exact ⟨rfl, rfl⟩

/-- Store for the C10 witness: one soft-deleted (hence inactive) account whose
stored hash "secret" would match the correct password. -/
def c10db : DB where
  users := [{ id := 1, email := "a@x.com", name := "A", role := "admin",
              password_hash := "secret", active := false, business_id := some 5,
              deleted_at := some 3 }]
  shifts := []
  transactions := []
  categories := []
  products := []

/-- Store for the C10 witness password branch and delete branch: the same
account, live and active. -/
def c10db2 : DB where
  users := [{ id := 1, email := "a@x.com", name := "A", role := "admin",
              password_hash := "secret", active := true, business_id := some 5,
              deleted_at := none }]
  shifts := []
  transactions := []
  categories := []
  products := []

/-- The account of `c10db2` as soft delete leaves it. -/
def c10r : UserRow :=
  { id := 1, email := "a@x.com", name := "A", role := "admin",
    password_hash := "secret", active := false, business_id := some 5,
    deleted_at := some 99 }

/-- Witness for C10: the inactive (soft-deleted) account is refused with the
same 401 even though the password comparison would succeed; a wrong password
on the active account yields the identical 401; and deleting the active
account forces its `active` flag to false together with the timestamp. -/
theorem c10_login_requires_active_witness :
    (("secret" == "secret") = true ∧
      login (fun p hsh => p == hsh) (fun _ => "tok") c10db "a@x.com" "secret" =
        .error ⟨401, "Credenciales inválidas"⟩) ∧
    login (fun p hsh => p == hsh) (fun _ => "tok") c10db2 "a@x.com" "wrong" =
      .error ⟨401, "Credenciales inválidas"⟩ ∧
    (c10r.active = false ∧ c10r.deleted_at = some 99) :=
  have hdel : deleteUser ⟨false, some 5⟩ c10db2 1 99 =
      .ok ({ c10db2 with users := [c10r] }, c10r) := rfl
  ⟨⟨by decide,
    c10_login_requires_active.1 (fun p hsh => p == hsh) (fun _ => "tok") c10db
      "a@x.com" "secret" (by decide) (by decide) (by decide)⟩,
   c10_login_requires_active.2.1 (fun p hsh => p == hsh) (fun _ => "tok") c10db2
     "a@x.com" "wrong"
     { id := 1, email := "a@x.com", name := "A", role := "admin",
       password_hash := "secret", active := true, business_id := some 5,
       deleted_at := none }
     (by decide) (by decide) (by simp [c10db2, single]) (by decide),
   c10_login_requires_active.2.2 ⟨false, some 5⟩ c10db2 1 99 _ _ hdel⟩


/-! ### Claim C4 -/

/-- Claim C4: creating an entity whose uniqueness key (account email, product
name) already exists in the same tenant fails with a Conflict; when the
matching row is soft-deleted the failure is the distinct ConflictWithDeleted
message suggesting restore; and the uniqueness lookup is tenant-scoped, so the
same key with no match in the caller's tenant succeeds even if another tenant
holds it. Stated for both the accounts route and the products route. -/
theorem c4_tenant_scoped_uniqueness :
    (∀ (ctx : ReqCtx) (db : DB) (email name role password : String)
        (hash : String → String) (newId b : Nat) (u : UserRow),
      email ≠ "" → name ≠ "" → password ≠ "" → ¬password.length < 6 →
      (role = "admin" ∨ role = "supervisor" ∨ role = "cajero") →
      ctx.businessId = some b →
      db.users.filter (fun v => v.email = email ∧ v.business_id = some b) = [u] →
      u.deleted_at = none →
      createUser ctx db email name role password hash newId =
        .error ⟨400, "El email ya está registrado en esta empresa"⟩) ∧
    (∀ (ctx : ReqCtx) (db : DB) (email name role password : String)
        (hash : String → String) (newId b : Nat) (u : UserRow) (ts : Nat),
      email ≠ "" → name ≠ "" → password ≠ "" → ¬password.length < 6 →
      (role = "admin" ∨ role = "supervisor" ∨ role = "cajero") →
      ctx.businessId = some b →
      db.users.filter (fun v => v.email = email ∧ v.business_id = some b) = [u] →
      u.deleted_at = some ts →
      createUser ctx db email name role password hash newId =
        .error ⟨400, "El email ya está registrado (usuario eliminado). Puede restaurarlo en lugar de crear uno nuevo."⟩) ∧
    (∀ (ctx : ReqCtx) (db : DB) (email name role password : String)
        (hash : String → String) (newId b : Nat),
      email ≠ "" → name ≠ "" → password ≠ "" → ¬password.length < 6 →
      (role = "admin" ∨ role = "supervisor" ∨ role = "cajero") →
      ctx.businessId = some b →
      db.users.filter (fun v => v.email = email ∧ v.business_id = some b) = [] →
      createUser ctx db email name role password hash newId =
        .ok { id := newId, email := email, name := name, role := role,
              password_hash := hash password, active := true,
              business_id := some b, deleted_at := none }) ∧
    (∀ (ctx : ReqCtx) (db : DB) (name : String) (price : ℚ) (ptype : String)
        (category_id newId b : Nat) (cat : CategoryRow) (p : ProductRow),
      name ≠ "" → price ≠ 0 → ¬price ≤ 0 →
      (ptype = "bano" ∨ ptype = "ducha" ∨ ptype = "locker") →
      category_id ≠ 0 → ctx.businessId = some b →
      single (db.categories.filter (fun c =>
        c.id = category_id ∧ c.business_id = b ∧ c.active = true)) = some cat →
      db.products.filter (fun v => v.name = name ∧ v.business_id = b) = [p] →
      p.deleted_at = none →
      createProduct ctx db name price ptype category_id newId =
        .error ⟨400, "Ya existe un producto con ese nombre en tu empresa"⟩) ∧
    (∀ (ctx : ReqCtx) (db : DB) (name : String) (price : ℚ) (ptype : String)
        (category_id newId b : Nat) (cat : CategoryRow) (p : ProductRow) (ts : Nat),
      name ≠ "" → price ≠ 0 → ¬price ≤ 0 →
      (ptype = "bano" ∨ ptype = "ducha" ∨ ptype = "locker") →
      category_id ≠ 0 → ctx.businessId = some b →
      single (db.categories.filter (fun c =>
        c.id = category_id ∧ c.business_id = b ∧ c.active = true)) = some cat →
      db.products.filter (fun v => v.name = name ∧ v.business_id = b) = [p] →
      p.deleted_at = some ts →
      createProduct ctx db name price ptype category_id newId =
        .error ⟨400, "Ya existe un producto con ese nombre (eliminado). Puede restaurarlo en lugar de crear uno nuevo."⟩) ∧
    (∀ (ctx : ReqCtx) (db : DB) (name : String) (price : ℚ) (ptype : String)
        (category_id newId b : Nat) (cat : CategoryRow),
      name ≠ "" → price ≠ 0 → ¬price ≤ 0 →
      (ptype = "bano" ∨ ptype = "ducha" ∨ ptype = "locker") →
      category_id ≠ 0 → ctx.businessId = some b →
      single (db.categories.filter (fun c =>
        c.id = category_id ∧ c.business_id = b ∧ c.active = true)) = some cat →
      db.products.filter (fun v => v.name = name ∧ v.business_id = b) = [] →
      createProduct ctx db name price ptype category_id newId =
        .ok { id := newId, name := name, price := price, type := ptype,
              category_id := category_id, business_id := b, active := true,
              deleted_at := none }) := by
  refine ⟨?_, ?_, ?_, ?_, ?_, ?_⟩
  · intro ctx db email name role password hash newId b u he hn hpw hplen hrole hb hfilter hdel
    have hr0 : role ≠ "" := by rcases hrole with h | h | h <;> simp [h]
    simp only [createUser, hb]
    rw [if_neg (by simp [he, hn, hr0, hpw]), if_neg hplen, if_neg (not_not_intro hrole),
      hfilter]
    simp [single, hdel]
  · intro ctx db email name role password hash newId b u ts he hn hpw hplen hrole hb hfilter hdel
    have hr0 : role ≠ "" := by rcases hrole with h | h | h <;> simp [h]
    simp only [createUser, hb]
    rw [if_neg (by simp [he, hn, hr0, hpw]), if_neg hplen, if_neg (not_not_intro hrole),
      hfilter]
    simp [single, hdel]
  · intro ctx db email name role password hash newId b he hn hpw hplen hrole hb hfilter
    have hr0 : role ≠ "" := by rcases hrole with h | h | h <;> simp [h]
    simp only [createUser, hb]
    rw [if_neg (by simp [he, hn, hr0, hpw]), if_neg hplen, if_neg (not_not_intro hrole),
      hfilter]
    simp [single]
  · intro ctx db name price ptype category_id newId b cat p hn hp0 hple htype hcid hb hcat hfilter hdel
    have ht0 : ptype ≠ "" := by rcases htype with h | h | h <;> simp [h]
    simp only [createProduct, hb]
    rw [if_neg (by simp [hn, hp0, ht0]), if_neg hcid, if_neg hple,
      if_neg (not_not_intro htype), hcat, hfilter]
    simp [single, hdel]
  · intro ctx db name price ptype category_id newId b cat p ts hn hp0 hple htype hcid hb hcat hfilter hdel
    have ht0 : ptype ≠ "" := by rcases htype with h | h | h <;> simp [h]
    simp only [createProduct, hb]
    rw [if_neg (by simp [hn, hp0, ht0]), if_neg hcid, if_neg hple,
      if_neg (not_not_intro htype), hcat, hfilter]
    simp [single, hdel]
  · intro ctx db name price ptype category_id newId b cat hn hp0 hple htype hcid hb hcat hfilter
    have ht0 : ptype ≠ "" := by rcases htype with h | h | h <;> simp [h]
    simp only [createProduct, hb]
    rw [if_neg (by simp [hn, hp0, ht0]), if_neg hcid, if_neg hple,
      if_neg (not_not_intro htype), hcat, hfilter]
    simp [single]


/-- Store for the C4 witness: tenant 5 holds a live account "dup@x.com" and a
live product "Agua"; both tenants hold an active category. -/
def c4db : DB where
  users := [{ id := 1, email := "dup@x.com", name := "D", role := "admin",
              password_hash := "h", active := true, business_id := some 5,
              deleted_at := none }]
  shifts := []
  transactions := []
  categories := [{ id := 1, name := "Cat", description := none, business_id := 5,
                   active := true },
                 { id := 2, name := "Cat", description := none, business_id := 6,
                   active := true }]
  products := [{ id := 1, name := "Agua", price := 10, type := "bano",
                 category_id := 1, business_id := 5, active := true,
                 deleted_at := none }]

/-- The same store with the conflicting account and product soft-deleted. -/
def c4dbDel : DB where
  users := [{ id := 1, email := "dup@x.com", name := "D", role := "admin",
              password_hash := "h", active := false, business_id := some 5,
              deleted_at := some 9 }]
  shifts := []
  transactions := []
  categories := [{ id := 1, name := "Cat", description := none, business_id := 5,
                   active := true },
                 { id := 2, name := "Cat", description := none, business_id := 6,
                   active := true }]
  products := [{ id := 1, name := "Agua", price := 10, type := "bano",
                 category_id := 1, business_id := 5, active := false,
                 deleted_at := some 9 }]

/-- Witness for C4: in tenant 5 the duplicate email/name conflict (live row ⇒
Conflict, soft-deleted row ⇒ the distinct restore-suggesting message); in
tenant 6 the same keys are accepted. -/
theorem c4_tenant_scoped_uniqueness_witness :
    createUser ⟨false, some 5⟩ c4db "dup@x.com" "N" "admin" "secret123"
        (fun s => s) 7 =
      .error ⟨400, "El email ya está registrado en esta empresa"⟩ ∧
    createUser ⟨false, some 5⟩ c4dbDel "dup@x.com" "N" "admin" "secret123"
        (fun s => s) 7 =
      .error ⟨400, "El email ya está registrado (usuario eliminado). Puede restaurarlo en lugar de crear uno nuevo."⟩ ∧
    createUser ⟨false, some 6⟩ c4db "dup@x.com" "N" "admin" "secret123"
        (fun s => s) 7 =
      .ok { id := 7, email := "dup@x.com", name := "N", role := "admin",
            password_hash := "secret123", active := true, business_id := some 6,
            deleted_at := none } ∧
    createProduct ⟨false, some 5⟩ c4db "Agua" 10 "bano" 1 7 =
      .error ⟨400, "Ya existe un producto con ese nombre en tu empresa"⟩ ∧
    createProduct ⟨false, some 5⟩ c4dbDel "Agua" 10 "bano" 1 7 =
      .error ⟨400, "Ya existe un producto con ese nombre (eliminado). Puede restaurarlo en lugar de crear uno nuevo."⟩ ∧
    createProduct ⟨false, some 6⟩ c4db "Agua" 10 "bano" 2 7 =
      .ok { id := 7, name := "Agua", price := 10, type := "bano",
            category_id := 2, business_id := 6, active := true,
            deleted_at := none } :=
  ⟨c4_tenant_scoped_uniqueness.1 ⟨false, some 5⟩ c4db "dup@x.com" "N" "admin"
      "secret123" (fun s => s) 7 5
      { id := 1, email := "dup@x.com", name := "D", role := "admin",
        password_hash := "h", active := true, business_id := some 5,
        deleted_at := none }
      (by decide) (by decide) (by decide) (by decide) (Or.inl rfl) rfl
      (by decide) rfl,
   c4_tenant_scoped_uniqueness.2.1 ⟨false, some 5⟩ c4dbDel "dup@x.com" "N" "admin"
      "secret123" (fun s => s) 7 5
      { id := 1, email := "dup@x.com", name := "D", role := "admin",
        password_hash := "h", active := false, business_id := some 5,
        deleted_at := some 9 }
      9 (by decide) (by decide) (by decide) (by decide) (Or.inl rfl) rfl
      (by decide) rfl,
   c4_tenant_scoped_uniqueness.2.2.1 ⟨false, some 6⟩ c4db "dup@x.com" "N" "admin"
      "secret123" (fun s => s) 7 6
      (by decide) (by decide) (by decide) (by decide) (Or.inl rfl) rfl (by decide),
   c4_tenant_scoped_uniqueness.2.2.2.1 ⟨false, some 5⟩ c4db "Agua" 10 "bano" 1 7 5
      { id := 1, name := "Cat", description := none, business_id := 5, active := true }
      { id := 1, name := "Agua", price := 10, type := "bano", category_id := 1,
        business_id := 5, active := true, deleted_at := none }
      (by decide) (by norm_num) (by norm_num) (Or.inl rfl) (by decide) rfl
      (by simp [c4db, single]) (by simp [c4db]) rfl,
   c4_tenant_scoped_uniqueness.2.2.2.2.1 ⟨false, some 5⟩ c4dbDel "Agua" 10 "bano" 1 7 5
      { id := 1, name := "Cat", description := none, business_id := 5, active := true }
      { id := 1, name := "Agua", price := 10, type := "bano", category_id := 1,
        business_id := 5, active := false, deleted_at := some 9 }
      9 (by decide) (by norm_num) (by norm_num) (Or.inl rfl) (by decide) rfl
      (by simp [c4dbDel, single]) (by simp [c4dbDel]) rfl,
   c4_tenant_scoped_uniqueness.2.2.2.2.2 ⟨false, some 6⟩ c4db "Agua" 10 "bano" 2 7 6
      { id := 2, name := "Cat", description := none, business_id := 6, active := true }
      (by decide) (by norm_num) (by norm_num) (Or.inl rfl) (by decide) rfl
      (by simp [c4db, single]) (by simp [c4db])⟩


/-! ### Claim C8 -/

/-- Store with one tenant-5 category referenced by a single product that is
both deactivated (`active = false`) and soft-deleted. -/
def c8db : DB where
  users := []
  shifts := []
  transactions := []
  categories := [{ id := 1, name := "Bebidas", description := none,
                   business_id := 5, active := true }]
  products := [{ id := 1, name := "Agua", price := 10, type := "bano",
                 category_id := 1, business_id := 5, active := false,
                 deleted_at := some 99 }]

/-- Counterexample to claim C8: the only product referencing the category is
deactivated and soft-deleted — no *active* entity references it — yet the
category delete still fails with DependencyExists(1), because the dependency
count has no filter on the product's `active` flag or `deleted_at`. -/
theorem c8_inactive_dependent_counterexample :
    (∀ p ∈ c8db.products, p.active = false ∧ p.deleted_at = some 99) ∧
    deleteCategory ⟨false, some 5⟩ c8db 1 =
      .error ⟨400, "No se puede eliminar. Hay 1 producto(s) usando esta categoría"⟩ := by
  constructor
  · decide
  · rfl

/-- Claim C8 amended: deleting a category fails with DependencyExists(count)
— and mutates nothing — exactly when any product row at all (active, inactive,
or soft-deleted) still references it; deactivating or soft-deleting the
referencing catalog item does not unblock the delete, only the physical
absence of referencing product rows does. -/
theorem c8_amended_dependency_counts_all_rows :
    (∀ (ctx : ReqCtx) (db : DB) (id : Nat) (c : CategoryRow),
      categoryScopedById ctx db id = some c →
      (db.products.filter (fun p => p.category_id = id)).length ≠ 0 →
      deleteCategory ctx db id =
        .error ⟨400, "No se puede eliminar. Hay " ++
          toString (db.products.filter (fun p => p.category_id = id)).length ++
          " producto(s) usando esta categoría"⟩) ∧
    (∀ (ctx : ReqCtx) (db : DB) (id : Nat) (c : CategoryRow),
      categoryScopedById ctx db id = some c →
      db.products.filter (fun p => p.category_id = id) = [] →
      deleteCategory ctx db id =
        .ok { db with categories := db.categories.filter (fun v => ¬v.id = id) }) := by
  constructor
  · intro ctx db id c hc hne
    simp only [deleteCategory, hc]
    rw [if_pos (Nat.pos_of_ne_zero hne)]
  · intro ctx db id c hc hfil
    simp only [deleteCategory, hc, hfil]
    rfl

/-- `c8db` with the referencing product row physically absent. -/
def c8db0 : DB :=
  { c8db with products := [] }

/-- Witness for the amended C8 theorem: with the (inactive, deleted) product
row present the delete fails with count 1; with the row physically gone it
succeeds. -/
theorem c8_amended_dependency_counts_all_rows_witness :
    deleteCategory ⟨false, some 5⟩ c8db 1 =
      .error ⟨400, "No se puede eliminar. Hay 1 producto(s) usando esta categoría"⟩ ∧
    deleteCategory ⟨false, some 5⟩ c8db0 1 = .ok { c8db0 with categories := [] } :=
  ⟨c8_amended_dependency_counts_all_rows.1 ⟨false, some 5⟩ c8db 1
      { id := 1, name := "Bebidas", description := none, business_id := 5,
        active := true }
      rfl (by decide),
   c8_amended_dependency_counts_all_rows.2 ⟨false, some 5⟩ c8db0 1
      { id := 1, name := "Bebidas", description := none, business_id := 5,
        active := true }
      rfl (by decide)⟩


/-! ### Claim C5 -/

/-- Any member of a list satisfying a predicate whose filter is a singleton is
that singleton. -/
theorem eq_of_filter_singleton {α : Type} {p : α → Bool} {l : List α} {a x : α}
    (hl : l.filter p = [a]) (hx : x ∈ l) (hpx : p x = true) : x = a := by
  have hmem : x ∈ l.filter p := List.mem_filter.mpr ⟨hx, hpx⟩
  rw [hl] at hmem
  exact List.mem_singleton.mp hmem

/-- Filtering after a map that preserves the predicate is mapping after the
filter. -/
theorem filter_map_pres {α : Type} {f : α → α} {p : α → Bool}
    (h : ∀ a, p (f a) = p a) (l : List α) :
    (l.map f).filter p = (l.filter p).map f := by
  rw [List.filter_map]
  exact congrArg (List.map f) (List.filter_congr (fun a _ => h a))

/-- A filter keeping a singleton keeps it after a predicate-preserving change
of the element. -/
theorem filter_singleton_of_pred {α : Type} {p : α → Bool} {a : α}
    (ha : [a].filter p = [a]) {b : α} (hb : p b = p a) : [b].filter p = [b] := by
  have hpa : p a = true := by
    cases hq : p a
    · rw [List.filter_singleton, hq] at ha
      simp at ha
    · rfl
  rw [List.filter_singleton, hb.trans hpa]
  rfl

/-- Store with one active tenant-5 category (and nothing else). -/
def c5db : DB where
  users := []
  shifts := []
  transactions := []
  categories := [{ id := 1, name := "Bebidas", description := none,
                   business_id := 5, active := true }]
  products := []

/-- Counterexample to claim C5 at the category entity: deleting the Active
category physically removes its row — no soft-delete timestamp is set, no
inactive-but-present row remains, and there is no category restore route —
so "delete then restore returns it to Active" fails for categories. -/
theorem c5_category_hard_delete_counterexample :
    deleteCategory ⟨false, some 5⟩ c5db 1 = .ok { c5db with categories := [] } ∧
    ({ c5db with categories := [] } : DB).categories = [] := by
  exact ⟨rfl, rfl⟩

/-- Claim C5 amended: for accounts and catalog items in state Active with the
active flag set, soft delete stamps `deleted_at` and forces `active := false`
together, and the subsequent restore returns exactly the original store and
the original row (timestamp unset, active flag true) — the round trip is the
identity. Categories, by contrast, are hard-deleted: a successful category
delete leaves no row with that id in any state, and no restore is possible. -/
theorem c5_soft_delete_restore_round_trip :
    (∀ (ctx : ReqCtx) (db : DB) (i now : Nat) (u : UserRow) (db₁ : DB) (r₁ : UserRow),
      db.users.filter (fun v => v.id = i) = [u] →
      scopeUsers ctx [u] = [u] →
      u.deleted_at = none → u.active = true →
      deleteUser ctx db i now = .ok (db₁, r₁) →
      (r₁.deleted_at = some now ∧ r₁.active = false) ∧
      restoreUser ctx db₁ i = .ok (db, u)) ∧
    (∀ (ctx : ReqCtx) (db : DB) (i now : Nat) (p : ProductRow) (db₁ : DB) (r₁ : ProductRow),
      db.products.filter (fun v => v.id = i) = [p] →
      scopeProducts ctx [p] = [p] →
      p.deleted_at = none → p.active = true →
      deleteProduct ctx db i now = .ok (db₁, r₁) →
      (r₁.deleted_at = some now ∧ r₁.active = false) ∧
      restoreProduct ctx db₁ i = .ok (db, p)) ∧
    (∀ (ctx : ReqCtx) (db : DB) (i : Nat) (db₂ : DB),
      deleteCategory ctx db i = .ok db₂ →
      ∀ c ∈ db₂.categories, ¬c.id = i) := by
  refine ⟨?_, ?_, ?_⟩
  · intro ctx db i now u db₁ r₁ hfilter hscope hdel hact h
    have hid : u.id = i := by
      have hu : u ∈ db.users.filter (fun v => v.id = i) := by
        rw [hfilter]; exact List.mem_singleton.mpr rfl
      exact of_decide_eq_true (List.mem_filter.mp hu).2
    have hu_single : userScopedById ctx db i = some u := by
      unfold userScopedById
      rw [hfilter, hscope]
      rfl
    simp only [deleteUser, hu_single, hdel] at h
    rw [Option.isSome_none] at h
    simp only [Bool.false_eq_true, if_false] at h
    rw [Except.ok.injEq, Prod.mk.injEq] at h
    obtain ⟨hdb₁, hr₁⟩ := h
    subst hdb₁
    subst hr₁
    refine ⟨⟨rfl, rfl⟩, ?_⟩
    have hpres : ∀ (a : UserRow),
        (decide ((if a.id = i then { a with deleted_at := some now, active := false }
          else a).id = i)) = decide (a.id = i) := by
      intro a
      by_cases ha : a.id = i <;> simp [ha]
    have hcomm := filter_map_pres
      (f := fun v : UserRow =>
        if v.id = i then { v with deleted_at := some now, active := false } else v)
      (p := fun v : UserRow => decide (v.id = i)) hpres db.users
    rw [hfilter] at hcomm
    have hg : (if u.id = i then { u with deleted_at := some now, active := false }
        else u) = { u with deleted_at := some now, active := false } := if_pos hid
    have hlookup₁ : userScopedById ctx
        { db with users := db.users.map (fun v =>
            if v.id = i then { v with deleted_at := some now, active := false } else v) }
        i = some { u with deleted_at := some now, active := false } := by
      unfold userScopedById
      simp only [hcomm, List.map_cons, List.map_nil, hg]
      have hs₂ : scopeUsers ctx [{ u with deleted_at := some now, active := false }] =
          [{ u with deleted_at := some now, active := false }] := by
        unfold scopeUsers at hscope ⊢
        split at hscope
        · rw [if_pos (by assumption)]
          exact filter_singleton_of_pred hscope rfl
        · rw [if_neg (by assumption)]
      rw [hs₂]
      rfl
    simp only [restoreUser, hlookup₁]
    rw [Option.isNone_some]
    simp only [Bool.false_eq_true, if_false]
    rw [Except.ok.injEq, Prod.mk.injEq]
    constructor
    · show ({ db with users := _ } : DB) = db
      have hmapmap : (db.users.map (fun v =>
          if v.id = i then { v with deleted_at := some now, active := false } else v)).map
            (fun v => if v.id = i then { v with deleted_at := none, active := true } else v) =
          db.users := by
        rw [List.map_map]
        have hpt : ∀ v ∈ db.users,
            ((fun v => if v.id = i then { v with deleted_at := none, active := true } else v) ∘
              (fun v => if v.id = i then { v with deleted_at := some now, active := false } else v)) v =
            id v := by
          intro v hv
          by_cases hvid : v.id = i
          · have hvu : v = u :=
              eq_of_filter_singleton hfilter hv (decide_eq_true hvid)
            subst hvu
            simp only [Function.comp_apply, if_pos hvid, id_eq]
            show ({ v with deleted_at := none, active := true } : UserRow) = v
            cases v
            simp_all
          · simp only [Function.comp_apply, if_neg hvid, id_eq]
        rw [List.map_congr_left hpt, List.map_id]
      rw [hmapmap]
    · show ({ u with deleted_at := none, active := true } : UserRow) = u
      cases u
      simp_all
  · intro ctx db i now p db₁ r₁ hfilter hscope hdel hact h
    have hid : p.id = i := by
      have hp : p ∈ db.products.filter (fun v => v.id = i) := by
        rw [hfilter]; exact List.mem_singleton.mpr rfl
      exact of_decide_eq_true (List.mem_filter.mp hp).2
    have hp_single : productScopedById ctx db i = some p := by
      unfold productScopedById
      rw [hfilter, hscope]
      rfl
    simp only [deleteProduct, hp_single, hdel] at h
    rw [Option.isSome_none] at h
    simp only [Bool.false_eq_true, if_false] at h
    rw [Except.ok.injEq, Prod.mk.injEq] at h
    obtain ⟨hdb₁, hr₁⟩ := h
    subst hdb₁
    subst hr₁
    refine ⟨⟨rfl, rfl⟩, ?_⟩
    have hpres : ∀ (a : ProductRow),
        (decide ((if a.id = i then { a with deleted_at := some now, active := false }
          else a).id = i)) = decide (a.id = i) := by
      intro a
      by_cases ha : a.id = i <;> simp [ha]
    have hcomm := filter_map_pres
      (f := fun v : ProductRow =>
        if v.id = i then { v with deleted_at := some now, active := false } else v)
      (p := fun v : ProductRow => decide (v.id = i)) hpres db.products
    rw [hfilter] at hcomm
    have hg : (if p.id = i then { p with deleted_at := some now, active := false }
        else p) = { p with deleted_at := some now, active := false } := if_pos hid
    have hlookup₁ : productScopedById ctx
        { db with products := db.products.map (fun v =>
            if v.id = i then { v with deleted_at := some now, active := false } else v) }
        i = some { p with deleted_at := some now, active := false } := by
      unfold productScopedById
      simp only [hcomm, List.map_cons, List.map_nil, hg]
      have hs₂ : scopeProducts ctx [{ p with deleted_at := some now, active := false }] =
          [{ p with deleted_at := some now, active := false }] := by
        unfold scopeProducts at hscope ⊢
        split at hscope
        · rw [if_pos (by assumption)]
          exact filter_singleton_of_pred hscope rfl
        · rw [if_neg (by assumption)]
      rw [hs₂]
      rfl
    simp only [restoreProduct, hlookup₁]
    rw [Option.isNone_some]
    simp only [Bool.false_eq_true, if_false]
    rw [Except.ok.injEq, Prod.mk.injEq]
    constructor
    · show ({ db with products := _ } : DB) = db
      have hmapmap : (db.products.map (fun v =>
          if v.id = i then { v with deleted_at := some now, active := false } else v)).map
            (fun v => if v.id = i then { v with deleted_at := none, active := true } else v) =
          db.products := by
        rw [List.map_map]
        have hpt : ∀ v ∈ db.products,
            ((fun v => if v.id = i then { v with deleted_at := none, active := true } else v) ∘
              (fun v => if v.id = i then { v with deleted_at := some now, active := false } else v)) v =
            id v := by
          intro v hv
          by_cases hvid : v.id = i
          · have hvp : v = p :=
              eq_of_filter_singleton hfilter hv (decide_eq_true hvid)
            subst hvp
            simp only [Function.comp_apply, if_pos hvid, id_eq]
            show ({ v with deleted_at := none, active := true } : ProductRow) = v
            cases v
            simp_all
          · simp only [Function.comp_apply, if_neg hvid, id_eq]
        rw [List.map_congr_left hpt, List.map_id]
      rw [hmapmap]
    · show ({ p with deleted_at := none, active := true } : ProductRow) = p
      cases p
      simp_all
  · intro ctx db i db₂ h
    simp only [deleteCategory] at h
    split at h
    · exact absurd h (by simp)
    · split at h
      · exact absurd h (by simp)
      · rw [Except.ok.injEq] at h
        subst h
        intro c hc
        have := (List.mem_filter.mp hc).2
        exact of_decide_eq_true this


/-- The Active tenant-5 account used by the C5 witness. -/
def c5user : UserRow :=
  { id := 1, email := "a@x.com", name := "A", role := "admin",
    password_hash := "h", active := true, business_id := some 5,
    deleted_at := none }

/-- The Active tenant-5 product used by the C5 witness. -/
def c5prod : ProductRow :=
  { id := 1, name := "Agua", price := 10, type := "bano", category_id := 1,
    business_id := 5, active := true, deleted_at := none }

/-- Store holding the Active account and product of the C5 witness. -/
def c5rdb : DB where
  users := [c5user]
  shifts := []
  transactions := []
  categories := []
  products := [c5prod]

/-- Witness for the amended C5 theorem: deleting then restoring the concrete
account and product returns exactly the original store and rows, and the
concrete category delete leaves no row with its id. -/
theorem c5_soft_delete_restore_round_trip_witness :
    restoreUser ⟨false, some 5⟩
        { c5rdb with users := [{ c5user with deleted_at := some 99, active := false }] } 1 =
      .ok (c5rdb, c5user) ∧
    restoreProduct ⟨false, some 5⟩
        { c5rdb with products := [{ c5prod with deleted_at := some 99, active := false }] } 1 =
      .ok (c5rdb, c5prod) ∧
    deleteCategory ⟨false, some 5⟩ c5db 1 = .ok { c5db with categories := [] } ∧
    (∀ c ∈ ({ c5db with categories := [] } : DB).categories, ¬c.id = 1) :=
  have hdelU : deleteUser ⟨false, some 5⟩ c5rdb 1 99 =
      .ok ({ c5rdb with users := [{ c5user with deleted_at := some 99, active := false }] },
           { c5user with deleted_at := some 99, active := false }) := rfl
  have hdelP : deleteProduct ⟨false, some 5⟩ c5rdb 1 99 =
      .ok ({ c5rdb with products := [{ c5prod with deleted_at := some 99, active := false }] },
           { c5prod with deleted_at := some 99, active := false }) := rfl
  have hdelC : deleteCategory ⟨false, some 5⟩ c5db 1 = .ok { c5db with categories := [] } := rfl
  ⟨(c5_soft_delete_restore_round_trip.1 ⟨false, some 5⟩ c5rdb 1 99 c5user _ _
      (by decide) (by decide) rfl rfl hdelU).2,
   (c5_soft_delete_restore_round_trip.2.1 ⟨false, some 5⟩ c5rdb 1 99 c5prod _ _
      (by simp [c5rdb, c5prod]) (by simp [scopeProducts, c5prod]) rfl rfl hdelP).2,
   hdelC,
   c5_soft_delete_restore_round_trip.2.2 ⟨false, some 5⟩ c5db 1 _ hdelC⟩

end BanosForum

